import Mathlib

/-!
Verification of the frame-streaming loop of `src/components/VideoAnalyzer.tsx`
(the `startFrameStreaming` / `stopRecording` logic and its shared state:
`frameInFlightRef`, `streamingIntervalRef`, `realTimeResults`, `streamError`).

The loop is single-threaded and event-driven: the timer callback runs up to
the `await fetch(...)`, suspends, and the continuation (response handling plus
the `finally` block) runs when the request resolves.  We model this with a
small-step transition system.  Events are:

* `tickFire env` — the `setInterval` callback fires, with `env` describing the
  capture source (video element presence, `readyState`, `videoWidth`, and
  whether `canvas.getContext('2d')` succeeds).  When the tick proceeds it
  captures a frame, sets `frameInFlightRef`, clears `streamError` and
  dispatches one `POST /analyze/frame` request.
* `respond net now` — an outstanding request resolves with outcome `net`
  (parsed JSON, non-2xx status, network rejection, or the 15-second abort);
  the continuation runs, ending in the `finally` that clears the flag.
* `stopRecording` — the user stops recording: the interval is cleared and
  the in-flight flag reset; an already-dispatched request is not aborted.

`outstanding` counts dispatched-but-unresolved fetch promises.  It is ghost
bookkeeping of the environment (the set of pending promises), not a program
variable; the program variable is the boolean `frameInFlight`.
-/

/-- An entry of the real-time result log (`RealTimeResult` in the source). -/
structure RealTimeResult where
  timestamp : Nat
  answer : String
  question : String
deriving Repr, DecidableEq

/-- The JSON body of a 2xx `/analyze/frame` response, as the code reads it:
`result.success`, `result.answer`, `result.error`, `result.question`.
Optional string fields are `Option String`; JavaScript truthiness of a
string field is "present and non-empty". -/
structure FrameResp where
  success : Bool
  answer : Option String
  error : Option String
  question : Option String
deriving Repr, DecidableEq

/-- JavaScript truthiness of an optional string field: truthy iff present
and not the empty string. -/
def optStrTruthy : Option String → Bool
  | none => false
  | some s => s ≠ ""

/-- Outcome of one dispatched `/analyze/frame` request, matching the four
control-flow paths of the `try`/`catch` in the tick callback. -/
inductive NetOutcome where
  /-- `response.ok` held and `response.json()` parsed to `r`. -/
  | ok (r : FrameResp)
  /-- `!response.ok`: the code throws `HTTP ${status}: ${text.slice(0,120)}`,
  caught by the generic branch of the `catch`. -/
  | httpFail (status : Nat) (body : String)
  /-- `fetch` rejected with a non-abort error carrying message `msg`
  (`""` models a falsy `err.message`). -/
  | netErrorOutcome (msg : String)
  /-- The 15-second `setTimeout` fired `controller.abort()`: the rejection's
  `err.name === 'AbortError'`. -/
  | timeout
deriving Repr, DecidableEq

/-- Snapshot of the capture source consulted by one tick. -/
structure TickEnv where
  /-- `cameraVideoRef.current` is non-null. -/
  videoPresent : Bool
  /-- `videoEl.readyState`. -/
  readyState : Nat
  /-- `videoEl.videoWidth`. -/
  videoWidth : Nat
  /-- `canvas.getContext('2d')` returned a context. -/
  ctxOk : Bool
deriving Repr, DecidableEq

/-- The tick's readiness guard:
`!videoEl || videoEl.readyState < 2 || videoEl.videoWidth === 0` makes the
tick return; `tickReady` is the negation of that condition. -/
def tickReady (env : TickEnv) : Bool :=
  env.videoPresent && decide (2 ≤ env.readyState) && decide (env.videoWidth ≠ 0)

/-- State of one frame-streaming session. -/
structure MState where
  /-- `streamingIntervalRef.current` is a live interval timer. -/
  timerActive : Bool
  /-- React `isRecording` state. -/
  isRecording : Bool
  /-- `frameInFlightRef.current`. -/
  frameInFlight : Bool
  /-- Ghost: number of dispatched, unresolved `/analyze/frame` requests. -/
  outstanding : Nat
  /-- React `realTimeResults` state. -/
  realTimeResults : List RealTimeResult
  /-- React `streamError` state (`""` = no error shown). -/
  streamError : String
deriving Repr, DecidableEq

/-- Observable actions of one event: whether the tick captured a frame and
dispatched a request, which log entry (if any) was appended, and which
answer (if any) was narrated via `speakPrediction`. -/
structure Trace where
  sentRequest : Bool
  appendedEntry : Option RealTimeResult
  narrated : Option String
deriving Repr, DecidableEq

def emptyTrace : Trace := ⟨false, none, none⟩

inductive Event where
  | tickFire (env : TickEnv)
  | respond (net : NetOutcome) (now : Nat)
  | stopRecording
deriving Repr, DecidableEq

/-- `'Request timed out. Backend may be busy.'` — the `AbortError` branch. -/
def timeoutMessage : String := "Request timed out. Backend may be busy."

/-- `'Network error — check your ngrok URL and CORS settings.'` — used when
`err.message` is falsy. -/
def defaultNetworkErrorMessage : String :=
  "Network error — check your ngrok URL and CORS settings."

/-- `'what is in the picture'` — the fixed question sent with every frame and
the fallback when the response's `question` field is falsy. -/
def defaultQuestion : String := "what is in the picture"

/-- The message of the error thrown on `!response.ok`:
`HTTP ${response.status}: ${text.slice(0, 120)}`. -/
def httpErrorMessage (status : Nat) (body : String) : String :=
  "HTTP " ++ toString status ++ ": " ++ body.take 120

/-- `answer === 'unanswerable' || answer === 'unsuitable'` is replaced by
`'object'`; every other answer passes through unchanged. -/
def normalizeAnswer (a : String) : String :=
  if a = "unanswerable" ∨ a = "unsuitable" then "object" else a

/-- `result.question || 'what is in the picture'`. -/
def questionOf (r : FrameResp) : String :=
  match r.question with
  | some q => if q = "" then defaultQuestion else q
  | none => defaultQuestion

/-- `setRealTimeResults(prev => [...prev.slice(-19), entry])`:
keep the last 19 entries and append the new one. -/
def appendResult (l : List RealTimeResult) (e : RealTimeResult) :
    List RealTimeResult :=
  l.drop (l.length - 19) ++ [e]

/-- `result.success && result.answer`: the guard for logging and narrating. -/
def respTruthy (r : FrameResp) : Bool :=
  r.success && optStrTruthy r.answer

/-- The continuation of an awaited request: the `try` tail, the `catch`
branches, and the `finally { frameInFlightRef.current = false }`.
It runs whenever a dispatched request resolves — also after `stopRecording`,
since nothing cancels or guards the pending promise. -/
def applyOutcome (s : MState) (net : NetOutcome) (now : Nat) : MState × Trace :=
  match net with
  | .ok r =>
      if respTruthy r = true then
        let a := normalizeAnswer (r.answer.getD "")
        let entry : RealTimeResult := ⟨now, a, questionOf r⟩
        ({ s with realTimeResults := appendResult s.realTimeResults entry,
                  frameInFlight := false },
         ⟨false, some entry, some a⟩)
      else if optStrTruthy r.error = true then
        ({ s with streamError := r.error.getD "", frameInFlight := false },
         emptyTrace)
      else
        ({ s with frameInFlight := false }, emptyTrace)
  | .httpFail st body =>
      ({ s with streamError := httpErrorMessage st body,
                frameInFlight := false }, emptyTrace)
  | .netErrorOutcome msg =>
      ({ s with streamError :=
                  (if msg = "" then defaultNetworkErrorMessage else msg),
                frameInFlight := false }, emptyTrace)
  | .timeout =>
      ({ s with streamError := timeoutMessage, frameInFlight := false },
       emptyTrace)

/-- One event of the session.

`tickFire`: the callback does not run once the interval is cleared; if
`frameInFlightRef.current` it returns at once; if the readiness guard fails
or no 2d context is available it returns silently; otherwise it captures the
frame, sets the flag, clears `streamError` and dispatches one request.

`respond`: a pending request resolves and its continuation runs.

`stopRecording`: `if (!mr || !isRecording) return;` then clears both
intervals and resets `frameInFlightRef`; the pending request (if any) is
neither aborted nor guarded against. -/
def step (s : MState) (e : Event) : MState × Trace :=
  match e with
  | .tickFire env =>
      if s.timerActive = false then (s, emptyTrace)
      else if s.frameInFlight = true then (s, emptyTrace)
      else if tickReady env = false then (s, emptyTrace)
      else if env.ctxOk = false then (s, emptyTrace)
      else ({ s with frameInFlight := true, streamError := "",
                      outstanding := s.outstanding + 1 },
            ⟨true, none, none⟩)
  | .respond net now =>
      if s.outstanding = 0 then (s, emptyTrace)
      else applyOutcome { s with outstanding := s.outstanding - 1 } net now
  | .stopRecording =>
      if s.isRecording = false then (s, emptyTrace)
      else ({ s with isRecording := false, timerActive := false,
                      frameInFlight := false }, emptyTrace)

/-- Run a list of events, keeping only the state. -/
def run (s : MState) (es : List Event) : MState :=
  es.foldl (fun st e => (step st e).1) s

/-- State right after `startRecording` → `startFrameStreaming` succeed:
interval installed, `frameInFlightRef.current = false`,
`setRealTimeResults([])`, `setStreamError('')`. -/
def initState : MState :=
  { timerActive := true, isRecording := true, frameInFlight := false,
    outstanding := 0, realTimeResults := [], streamError := "" }

/-- A session that has not started streaming. -/
def idleState : MState :=
  { timerActive := false, isRecording := false, frameInFlight := false,
    outstanding := 0, realTimeResults := [], streamError := "" }

/-- `startFrameStreaming`: returns without starting anything when
`!cameraVideoRef.current || !apiUrl`; otherwise clears any previous interval,
resets the flag, and installs the repeating timer.  Note the function never
inspects the video's dimensions or `readyState` — those are checked per tick. -/
def startFrameStreaming (videoPresent : Bool) (apiUrl : String) (s : MState) :
    MState :=
  if videoPresent = false ∨ apiUrl = "" then s
  else { s with timerActive := true, frameInFlight := false }

/-! ### Shared helper lemmas about `applyOutcome`, `step` and `run` -/

theorem applyOutcome_outstanding (s : MState) (net : NetOutcome) (now : Nat) :
    ((applyOutcome s net now).1).outstanding = s.outstanding := by
  cases net with
  | ok r =>
      by_cases h : respTruthy r = true
      · simp [applyOutcome, h]
      · by_cases h2 : optStrTruthy r.error = true
        · simp [applyOutcome, h, h2]
        · simp [applyOutcome, h, h2]
  | httpFail st body => rfl
  | netErrorOutcome msg => rfl
  | timeout => rfl

theorem applyOutcome_frameInFlight (s : MState) (net : NetOutcome) (now : Nat) :
    ((applyOutcome s net now).1).frameInFlight = false := by
  cases net with
  | ok r =>
      by_cases h : respTruthy r = true
      · simp [applyOutcome, h]
      · by_cases h2 : optStrTruthy r.error = true
        · simp [applyOutcome, h, h2]
        · simp [applyOutcome, h, h2]
  | httpFail st body => rfl
  | netErrorOutcome msg => rfl
  | timeout => rfl

theorem applyOutcome_timerActive (s : MState) (net : NetOutcome) (now : Nat) :
    ((applyOutcome s net now).1).timerActive = s.timerActive := by
  cases net with
  | ok r =>
      by_cases h : respTruthy r = true
      · simp [applyOutcome, h]
      · by_cases h2 : optStrTruthy r.error = true
        · simp [applyOutcome, h, h2]
        · simp [applyOutcome, h, h2]
  | httpFail st body => rfl
  | netErrorOutcome msg => rfl
  | timeout => rfl

/-- The session invariant backing the single-in-flight-request property:
at most one request is outstanding, and one can be outstanding only while
the flag is set or after the timer has been torn down. -/
def sessionInv (s : MState) : Prop :=
  s.outstanding ≤ 1 ∧
    (s.outstanding = 1 → s.frameInFlight = true ∨ s.timerActive = false)

theorem step_sessionInv (s : MState) (e : Event) (h : sessionInv s) :
    sessionInv (step s e).1 := by
  obtain ⟨h1, h2⟩ := h
  cases e with
  | tickFire env =>
      by_cases hta : s.timerActive = false
      · simpa [step, hta] using ⟨h1, h2⟩
      · by_cases hfl : s.frameInFlight = true
        · simpa [step, hta, hfl] using ⟨h1, h2⟩
        · by_cases hrdy : tickReady env = false
          · simpa [step, hta, hfl, hrdy] using ⟨h1, h2⟩
          · by_cases hctx : env.ctxOk = false
            · simpa [step, hta, hfl, hrdy, hctx] using ⟨h1, h2⟩
            · have h0 : s.outstanding = 0 := by
                rcases Nat.eq_or_lt_of_le h1 with hc | hc
                · rcases h2 hc with hx | hx
                  · exact absurd hx hfl
                  · exact absurd hx hta
                · omega
              refine ⟨?_, ?_⟩ <;> simp [step, hta, hfl, hrdy, hctx, h0]
  | respond net now =>
      by_cases h0 : s.outstanding = 0
      · simpa [step, h0] using ⟨h1, h2⟩
      · have hq :=
          applyOutcome_outstanding { s with outstanding := s.outstanding - 1 }
            net now
        refine ⟨?_, ?_⟩
        · simp only [step, if_neg h0]
          rw [hq]
          simp only []
          omega
        · simp only [step, if_neg h0]
          intro he
          rw [hq] at he
          simp only [] at he
          omega
  | stopRecording =>
      by_cases hr : s.isRecording = false
      · simpa [step, hr] using ⟨h1, h2⟩
      · refine ⟨?_, ?_⟩
        · simpa [step, hr] using h1
        · intro _
          simp [step, hr]

theorem run_cons (s : MState) (e : Event) (es : List Event) :
    run s (e :: es) = run (step s e).1 es := rfl

theorem run_sessionInv (es : List Event) (s : MState) (h : sessionInv s) :
    sessionInv (run s es) := by
  induction es generalizing s with
  | nil => exact h
  | cons e es ih => exact ih (step s e).1 (step_sessionInv s e h)

theorem sessionInv_init : sessionInv initState := by
  constructor
  · decide
  · intro h
    exact absurd h (by decide)

theorem appendResult_length_le (l : List RealTimeResult) (e : RealTimeResult)
    (h : l.length ≤ 20) : (appendResult l e).length ≤ 20 := by
  unfold appendResult
  rw [List.length_append, List.length_drop]
  simp only [List.length_singleton]
  omega

theorem applyOutcome_results_bound (s : MState) (net : NetOutcome) (now : Nat)
    (h : s.realTimeResults.length ≤ 20) :
    ((applyOutcome s net now).1).realTimeResults.length ≤ 20 := by
  cases net with
  | ok r =>
      by_cases ht : respTruthy r = true
      · simp only [applyOutcome, if_pos ht]
        exact appendResult_length_le _ _ h
      · by_cases h2 : optStrTruthy r.error = true
        · simpa [applyOutcome, ht, h2] using h
        · simpa [applyOutcome, ht, h2] using h
  | httpFail st body => exact h
  | netErrorOutcome msg => exact h
  | timeout => exact h

theorem step_results_bound (s : MState) (e : Event)
    (h : s.realTimeResults.length ≤ 20) :
    ((step s e).1).realTimeResults.length ≤ 20 := by
  cases e with
  | tickFire env =>
      by_cases hta : s.timerActive = false
      · simpa [step, hta] using h
      · by_cases hfl : s.frameInFlight = true
        · simpa [step, hta, hfl] using h
        · by_cases hrdy : tickReady env = false
          · simpa [step, hta, hfl, hrdy] using h
          · by_cases hctx : env.ctxOk = false
            · simpa [step, hta, hfl, hrdy, hctx] using h
            · simpa [step, hta, hfl, hrdy, hctx] using h
  | respond net now =>
      by_cases h0 : s.outstanding = 0
      · simpa [step, h0] using h
      · simp only [step, if_neg h0]
        exact applyOutcome_results_bound _ net now h
  | stopRecording =>
      by_cases hr : s.isRecording = false
      · simpa [step, hr] using h
      · simpa [step, hr] using h

theorem run_results_bound (es : List Event) (s : MState)
    (h : s.realTimeResults.length ≤ 20) :
    (run s es).realTimeResults.length ≤ 20 := by
  induction es generalizing s with
  | nil => exact h
  | cons e es ih => exact ih (step s e).1 (step_results_bound s e h)

/-- The truncated body of a non-2xx response holds at most 120 characters. -/
theorem take_length_le (body : String) (n : Nat) : (body.take n).length ≤ n := by
  rw [String.take_eq]
  show (body.1.take n).length ≤ n
  rw [List.length_take]
  omega

/-! ### Shared concrete inputs for witnesses and counterexamples -/

/-- A ready capture source: element present, `readyState = 2`, width 640,
2d context available. -/
def readyEnv : TickEnv := ⟨true, 2, 640, true⟩

/-- A successful response carrying the answer `dog`. -/
def dogResp : FrameResp := ⟨true, some "dog", none, none⟩

/-- A session with the timer live and exactly one request in flight. -/
def busyState : MState :=
  { timerActive := true, isRecording := true, frameInFlight := true,
    outstanding := 1, realTimeResults := [], streamError := "" }

/-! ### Claim theorems -/

/-- C1: a tick that fires while `frameInFlightRef` is set returns immediately
— the state is unchanged and no frame is captured, no request dispatched —
and, over every event sequence of a session started by `startFrameStreaming`,
the number of outstanding `/analyze/frame` requests never exceeds 1. -/
theorem c1_at_most_one_in_flight :
    (∀ es : List Event, (run initState es).outstanding ≤ 1) ∧
    (∀ (s : MState) (env : TickEnv), s.frameInFlight = true →
      step s (Event.tickFire env) = (s, emptyTrace)) := by
  constructor
  · intro es
    exact (run_sessionInv es initState sessionInv_init).1
  · intro s env hf
    by_cases hta : s.timerActive = false
    · simp [step, hta]
    · simp [step, hta, hf]

theorem c1_witness :
    busyState.frameInFlight = true ∧
    step busyState (Event.tickFire readyEnv) = (busyState, emptyTrace) :=
  ⟨rfl, c1_at_most_one_in_flight.2 busyState readyEnv rfl⟩

/-- C2: whatever outcome a dispatched request resolves with — parsed 2xx
response, non-2xx status, network error, or the 15-second abort — the
`finally` block clears `frameInFlightRef`, so no single failure leaves the
flag permanently set. -/
theorem c2_flag_always_cleared (s : MState) (net : NetOutcome) (now : Nat)
    (h : 0 < s.outstanding) :
    ((step s (Event.respond net now)).1).frameInFlight = false := by
  have h0 : ¬ s.outstanding = 0 := by omega
  simp only [step, if_neg h0]
  exact applyOutcome_frameInFlight _ net now

theorem c2_witness :
    0 < busyState.outstanding ∧
    ((step busyState (Event.respond NetOutcome.timeout 5)).1).frameInFlight
      = false :=
  ⟨by decide, c2_flag_always_cleared busyState NetOutcome.timeout 5 (by decide)⟩

/-- C3: the second half of the claim FAILS on the code.  `stopRecording`
clears the interval and the flag but neither aborts nor guards the pending
request; when that abandoned request later resolves successfully, its
continuation still runs `setRealTimeResults` and appends an entry.  Below:
right after `stopRecording` the log is empty, yet after the abandoned
request resolves with answer `dog` the log has gained an entry. -/
theorem c3_append_after_stop :
    (run initState
        [Event.tickFire readyEnv, Event.stopRecording]).realTimeResults
      = [] ∧
    (run initState
        [Event.tickFire readyEnv, Event.stopRecording,
         Event.respond (NetOutcome.ok dogResp) 1000]).realTimeResults
      = [⟨1000, "dog", defaultQuestion⟩] := by
  constructor
  · rfl
  · rfl

theorem appendResult_eq_drop (l : List RealTimeResult) (e : RealTimeResult) :
    appendResult l e = (l ++ [e]).drop (l.length + 1 - 20) := by
  unfold appendResult
  rw [List.drop_append_eq_append_drop]
  have h2 : l.length + 1 - 20 = l.length - 19 := by omega
  have h3 : l.length - 19 - l.length = 0 := by omega
  rw [h2, h3, List.drop_zero]

/-- C4: the result log never exceeds 20 entries; each successful tick
appends at the end after keeping only the last 19, i.e. the update equals
appending and then truncating to the 20 most recent; after 21 successful
appends, the log is exactly the last 20 entries in arrival order. -/
theorem c4_log_capped_fifo :
    (∀ es : List Event, (run initState es).realTimeResults.length ≤ 20) ∧
    (∀ (l : List RealTimeResult) (e : RealTimeResult),
      appendResult l e = (l ++ [e]).drop (l.length + 1 - 20)) ∧
    (((List.range 21).map (fun i =>
        ({ timestamp := i, answer := "a", question := "q" } : RealTimeResult))).foldl
        appendResult []
      = ((List.range 21).map (fun i =>
          ({ timestamp := i, answer := "a",
             question := "q" } : RealTimeResult))).drop 1) := by
  refine ⟨?_, appendResult_eq_drop, by decide⟩
  intro es
  exact run_results_bound es initState (by decide)

/-- C5: when a successful response's answer is `unanswerable` or
`unsuitable` it is normalized to `object`, and the normalized answer is
exactly what is appended to the log and handed to narration; any other
answer passes through unchanged. -/
theorem c5_answer_normalization (s : MState) (now : Nat) (r : FrameResp)
    (a : String) (hans : r.answer = some a) (ha : a ≠ "")
    (hs : r.success = true) (hout : 0 < s.outstanding) :
    ((step s (Event.respond (NetOutcome.ok r) now)).2).narrated
        = some (normalizeAnswer a) ∧
    ((step s (Event.respond (NetOutcome.ok r) now)).1).realTimeResults
        = appendResult s.realTimeResults ⟨now, normalizeAnswer a, questionOf r⟩ ∧
    normalizeAnswer "unanswerable" = "object" ∧
    normalizeAnswer "unsuitable" = "object" ∧
    (∀ b, b ≠ "unanswerable" → b ≠ "unsuitable" → normalizeAnswer b = b) := by
  have h0 : ¬ s.outstanding = 0 := by omega
  have ht : respTruthy r = true := by
    simp [respTruthy, hs, hans, optStrTruthy, ha]
  have hget : r.answer.getD "" = a := by rw [hans]; rfl
  refine ⟨?_, ?_, by decide, by decide, ?_⟩
  · simp [step, h0, applyOutcome, ht, hget]
  · simp [step, h0, applyOutcome, ht, hget]
  · intro b hb1 hb2
    simp [normalizeAnswer, hb1, hb2]

theorem c5_witness :
    ((step busyState
        (Event.respond (NetOutcome.ok ⟨true, some "unanswerable", none, none⟩)
          7)).2).narrated = some (normalizeAnswer "unanswerable") :=
  (c5_answer_normalization busyState 7 ⟨true, some "unanswerable", none, none⟩
    "unanswerable" rfl (by decide) rfl (by decide)).1

/-- C6: the abort of a request that did not resolve within 15 seconds
surfaces `Request timed out. Backend may be busy.`, which differs from the
generic network-error message; the flag is cleared, and a subsequent tick
with a ready capture source dispatches a request normally. -/
theorem c6_timeout_distinct (s : MState) (now : Nat) (h : 0 < s.outstanding) :
    ((step s (Event.respond NetOutcome.timeout now)).1).streamError
        = timeoutMessage ∧
    timeoutMessage ≠ defaultNetworkErrorMessage ∧
    ((step s (Event.respond NetOutcome.timeout now)).1).frameInFlight
        = false ∧
    (∀ env : TickEnv, s.timerActive = true → tickReady env = true →
      env.ctxOk = true →
      ((step ((step s (Event.respond NetOutcome.timeout now)).1)
          (Event.tickFire env)).2).sentRequest = true) := by
  have h0 : ¬ s.outstanding = 0 := by omega
  refine ⟨?_, by decide, ?_, ?_⟩
  · simp [step, h0, applyOutcome]
  · simp [step, h0, applyOutcome]
  · intro env hta hrdy hctx
    simp [step, h0, applyOutcome, hta, hrdy, hctx]

theorem c6_witness :
    ((step busyState (Event.respond NetOutcome.timeout 9)).1).streamError
      = timeoutMessage :=
  (c6_timeout_distinct busyState 9 (by decide)).1

/-- C7 counterexample: with the camera video element present and a
non-empty API URL, but the capture source reporting zero intrinsic width —
not ready in the claim's sense (`tickReady` is false) — `startFrameStreaming`
nevertheless begins the repeating timer, so "no repeating timer is begun" is
false at this input. -/
theorem c7_counterexample :
    tickReady ⟨true, 4, 0, true⟩ = false ∧
    idleState.timerActive = false ∧
    (startFrameStreaming true "https://demo.ngrok-free.app"
        idleState).timerActive = true := by
  decide

/-- C7 (amended): `startFrameStreaming` is a silent no-op exactly when the
camera video element is absent or the API URL is empty; the capture source's
readiness is not consulted at start — instead every tick that fires while
the source is unready (not active, zero width, or `readyState < 2`) is
itself a silent no-op while the timer keeps running. -/
theorem c7_start_gating (vp : Bool) (url : String) (s : MState) :
    (vp = false ∨ url = "" → startFrameStreaming vp url s = s) ∧
    (vp = true → url ≠ "" →
      (startFrameStreaming vp url s).timerActive = true ∧
      (startFrameStreaming vp url s).frameInFlight = false) ∧
    (∀ (s2 : MState) (env : TickEnv), tickReady env = false →
      step s2 (Event.tickFire env) = (s2, emptyTrace)) := by
  refine ⟨?_, ?_, ?_⟩
  · intro hc
    simp only [startFrameStreaming, if_pos hc]
  · intro hvp hurl
    have hc : ¬ (vp = false ∨ url = "") := by
      rintro (hx | hx)
      · rw [hvp] at hx
        exact absurd hx (by decide)
      · exact hurl hx
    constructor <;> simp [startFrameStreaming, hc]
  · intro s2 env hrdy
    by_cases hta : s2.timerActive = false
    · simp [step, hta]
    · by_cases hfl : s2.frameInFlight = true
      · simp [step, hta, hfl]
      · simp [step, hta, hfl, hrdy]

theorem c7_witness :
    startFrameStreaming false "https://demo.ngrok-free.app" idleState
      = idleState :=
  (c7_start_gating false "https://demo.ngrok-free.app" idleState).1
    (Or.inl rfl)

/-- C8: a non-2xx response surfaces
`HTTP <status>: <first 120 characters of the body>` — the truncated body
never exceeds 120 characters — and that tick appends no result-log entry. -/
theorem c8_http_error_detail (s : MState) (st : Nat) (body : String)
    (now : Nat) (h : 0 < s.outstanding) :
    ((step s (Event.respond (NetOutcome.httpFail st body) now)).1).streamError
        = "HTTP " ++ toString st ++ ": " ++ body.take 120 ∧
    (body.take 120).length ≤ 120 ∧
    ((step s
        (Event.respond (NetOutcome.httpFail st body) now)).1).realTimeResults
        = s.realTimeResults ∧
    ((step s (Event.respond (NetOutcome.httpFail st body) now)).2).appendedEntry
        = none := by
  have h0 : ¬ s.outstanding = 0 := by omega
  refine ⟨?_, take_length_le body 120, ?_, ?_⟩ <;>
    simp [step, h0, applyOutcome, httpErrorMessage, emptyTrace]

theorem c8_witness :
    ((step busyState
        (Event.respond (NetOutcome.httpFail 500 "the model is overloaded")
          4)).1).streamError
      = "HTTP " ++ toString 500 ++ ": "
          ++ ("the model is overloaded" : String).take 120 :=
  (c8_http_error_detail busyState 500 "the model is overloaded" 4
    (by decide)).1

/-- C9: a tick firing while the capture source reports zero width is a
complete no-op: the state is unchanged (no request dispatched, no error
recorded, flag untouched) and the timer field is exactly as before, so the
loop keeps running. -/
theorem c9_zero_width_tick (s : MState) (env : TickEnv)
    (hw : env.videoWidth = 0) :
    step s (Event.tickFire env) = (s, emptyTrace) := by
  have hrdy : tickReady env = false := by simp [tickReady, hw]
  by_cases hta : s.timerActive = false
  · simp [step, hta]
  · by_cases hfl : s.frameInFlight = true
    · simp [step, hta, hfl]
    · simp [step, hta, hfl, hrdy]

theorem c9_witness :
    step initState (Event.tickFire ⟨true, 4, 0, true⟩)
      = (initState, emptyTrace) :=
  c9_zero_width_tick initState ⟨true, 4, 0, true⟩ rfl

/-- C10: a parsed 2xx response whose `success` is not truthy or whose
`answer` is absent or empty appends nothing to the log and narrates
nothing; if its `error` field is also absent or empty, the tick ends with
`streamError` still cleared — the tick is dropped silently. -/
theorem c10_silent_drop (s : MState) (env : TickEnv) (r : FrameResp)
    (now : Nat) (htimer : s.timerActive = true)
    (hflag : s.frameInFlight = false) (henv : tickReady env = true)
    (hctx : env.ctxOk = true) (hns : respTruthy r = false) :
    ((step ((step s (Event.tickFire env)).1)
        (Event.respond (NetOutcome.ok r) now)).1).realTimeResults
      = s.realTimeResults ∧
    ((step ((step s (Event.tickFire env)).1)
        (Event.respond (NetOutcome.ok r) now)).2).narrated = none ∧
    (optStrTruthy r.error = false →
      ((step ((step s (Event.tickFire env)).1)
          (Event.respond (NetOutcome.ok r) now)).1).streamError = "") := by
  have hs1 : (step s (Event.tickFire env)).1
      = { s with frameInFlight := true, streamError := "",
                 outstanding := s.outstanding + 1 } := by
    simp [step, htimer, hflag, henv, hctx]
  rw [hs1]
  by_cases herr : optStrTruthy r.error = true
  · refine ⟨?_, ?_, ?_⟩
    · simp [step, applyOutcome, hns, herr]
    · simp [step, applyOutcome, hns, herr, emptyTrace]
    · intro hfalse
      rw [herr] at hfalse
      exact absurd hfalse (by decide)
  · have herr2 : optStrTruthy r.error = false := by
      cases hb : optStrTruthy r.error
      · rfl
      · exact absurd hb herr
    refine ⟨?_, ?_, ?_⟩
    · simp [step, applyOutcome, hns, herr2]
    · simp [step, applyOutcome, hns, herr2, emptyTrace]
    · intro _
      simp [step, applyOutcome, hns, herr2]

theorem c10_witness :
    ((step ((step initState (Event.tickFire readyEnv)).1)
        (Event.respond (NetOutcome.ok ⟨false, none, none, none⟩)
          3)).1).realTimeResults
      = initState.realTimeResults :=
  (c10_silent_drop initState readyEnv ⟨false, none, none, none⟩ 3 rfl rfl
    (by decide) rfl (by decide)).1

theorem c4_witness :
    (run initState []).realTimeResults.length ≤ 20 :=
  c4_log_capped_fifo.1 []
